import Mathlib

/-!
Verification development for the msm-tis (openpathsampling) repository.

Shallow embedding of the parts of the code the claims concern:
* `openpathsampling/snapshot.py` — `Configuration`, `Momentum`, `Snapshot`
  (construction with its NaN check, the property accessors behind the
  `has` decorator, `reverse`, `copy`, `reversed_copy`), both as pure
  values and, for the object-identity claims, as records in an explicit
  object store.
* `openpathsampling/pathmovechange.py` — the `PathMoveChange` tree with
  its `accepted` / `samples` / `apply_to` logic.
* `openpathsampling/volume.py` — `LambdaVolumePeriodic`.
* `opentis/dynamics_engine.py` — `DynamicsEngine._register_options`.
* `openpathsampling/todict.py` and `openpathsampling/util/todict.py` —
  `ObjectJSON.build`.

Machine floats are modelled as rationals extended with a NaN element;
Python exceptions are modelled with `Except` over an error tag type.
-/

namespace OPS

/-- Error tags modelling the Python exceptions the embedded code can raise. -/
inductive PyErr where
  | attributeError
  | typeError
  | valueError
  | indexError
  | keyError
  | zeroDivisionError
  | recursionError
  | exceptionErr
  deriving DecidableEq, Repr

/-- True exactly on the error case of an `Except` result. -/
def isError : Except ε α → Bool
  | .error _ => true
  | .ok _ => false

/-- Machine float modelled as a rational number or the not-a-number value. -/
inductive PFloat where
  | nan
  | val (q : ℚ)
  deriving DecidableEq, Repr

/-- True on the not-a-number value, modelling `np.isnan` on one entry. -/
def PFloat.isNan : PFloat → Bool
  | .nan => true
  | .val _ => false

/-- Negation of a float; `-1.0 * nan` stays nan. -/
def PFloat.neg : PFloat → PFloat
  | .nan => .nan
  | .val q => .val (-q)

/-- Addition of floats; any nan operand gives nan. -/
def PFloat.add : PFloat → PFloat → PFloat
  | .nan, _ => .nan
  | .val _, .nan => .nan
  | .val a, .val b => .val (a + b)

/-- Elementwise `np.any(np.isnan(arr))` over a flattened array. -/
def hasNan (arr : List PFloat) : Bool :=
  arr.any PFloat.isNan

/-- Elementwise `-1.0 * arr` over a flattened array (numpy allocates a fresh
array for this product; it never mutates its operand). -/
def negList (arr : List PFloat) : List PFloat :=
  arr.map PFloat.neg

/-- Same check as in `Snapshot.__init__` lines 388-392: NaN test applied to an
optional coordinate array (absent coordinates pass). -/
def hasNanOpt : Option (List PFloat) → Bool
  | some arr => hasNan arr
  | none => false

@[simp] theorem negList_negList (arr : List PFloat) : negList (negList arr) = arr := by
  induction arr with
  | nil => rfl
  | cons a rest ih =>
    cases a <;> simp [negList, PFloat.neg] at ih ⊢ <;> simpa [negList] using ih

/-- Configuration value, snapshot.py lines 20-83: coordinates, box vectors,
potential energy and a topology reference, each possibly absent. The
topology is an opaque reference modelled by an index. -/
structure Configuration where
  coordinates : Option (List PFloat)
  box_vectors : Option (List PFloat)
  potential_energy : Option PFloat
  topology : Option Nat
  deriving DecidableEq, Repr

/-- Configuration.__init__ (snapshot.py lines 32-83): stores the given
components (deepcopy of pure values is the identity) and raises ValueError
when the coordinates contain a NaN. -/
def Configuration.init (coordinates box_vectors : Option (List PFloat))
    (potential_energy : Option PFloat) (topology : Option Nat) :
    Except PyErr Configuration :=
  let c : Configuration := ⟨coordinates, box_vectors, potential_energy, topology⟩
  if hasNanOpt c.coordinates then .error .valueError else .ok c

/-- Momentum value, snapshot.py lines 175-216: velocities and kinetic energy,
each possibly absent. -/
structure Momentum where
  velocities : Option (List PFloat)
  kinetic_energy : Option PFloat
  deriving DecidableEq, Repr

/-- Momentum.__init__ (snapshot.py lines 186-216): stores the given
components; there is no NaN (or any other) check, so construction never
raises. -/
def Momentum.init (velocities : Option (List PFloat))
    (kinetic_energy : Option PFloat) : Momentum :=
  ⟨velocities, kinetic_energy⟩

/-- Snapshot value, snapshot.py lines 301-394: an optional Configuration, an
optional Momentum and the `reversed` flag. `__init__` always assigns the
`configuration` and `momentum` attributes (possibly to None), so the
`has('configuration')` / `has('momentum')` guards of the accessors, which
test `hasattr`, always pass on initialised snapshots. -/
structure Snapshot where
  configuration : Option Configuration
  momentum : Option Momentum
  reversed : Bool
  deriving DecidableEq, Repr

/-- Test of snapshot.py line 381: all three data fields of the synthesized
configuration are absent. -/
def Configuration.isEmptyData (c : Configuration) : Bool :=
  c.coordinates.isNone && c.box_vectors.isNone && c.potential_energy.isNone

/-- Test of snapshot.py line 384: both data fields of the synthesized momentum
are absent. -/
def Momentum.isEmptyData (m : Momentum) : Bool :=
  m.velocities.isNone && m.kinetic_energy.isNone

/-- Snapshot.__init__ (snapshot.py lines 311-394), value level: build or reuse
the Configuration/Momentum, apply the per-component overrides, drop a
sub-object whose data fields are all absent, then run the NaN check on the
(remaining) configuration coordinates. -/
def Snapshot.init (coordinates velocities box_vectors : Option (List PFloat))
    (potential_energy kinetic_energy : Option PFloat) (topology : Option Nat)
    (configuration : Option Configuration) (momentum : Option Momentum)
    (rev : Bool) : Except PyErr Snapshot :=
  -- lines 353-360: fresh empty sub-objects when none are passed
  let config0 : Configuration := configuration.getD ⟨none, none, none, none⟩
  let mom0 : Momentum := momentum.getD ⟨none, none⟩
  -- lines 362-363: topology override
  let config1 : Configuration :=
    match topology with
    | some t => { config0 with topology := some t }
    | none => config0
  -- lines 367-376: per-component overrides (only when the argument is given)
  let config2 : Configuration :=
    { config1 with
        coordinates := coordinates.orElse (fun _ => config1.coordinates)
        box_vectors := box_vectors.orElse (fun _ => config1.box_vectors)
        potential_energy := potential_energy.orElse (fun _ => config1.potential_energy) }
  let mom2 : Momentum :=
    { mom0 with
        velocities := velocities.orElse (fun _ => mom0.velocities)
        kinetic_energy := kinetic_energy.orElse (fun _ => mom0.kinetic_energy) }
  -- lines 380-385: drop sub-objects carrying no data
  let configF : Option Configuration :=
    if config2.isEmptyData then none else some config2
  let momF : Option Momentum :=
    if mom2.isEmptyData then none else some mom2
  -- lines 388-392: NaN check on the coordinates of the configuration when it
  -- is present (an absent configuration or absent coordinates pass)
  if hasNanOpt (configF.bind Configuration.coordinates) then .error .valueError
  else .ok ⟨configF, momF, rev⟩

/-- Snapshot.coordinates (snapshot.py lines 404-410): the `has` guard passes
(the attribute exists), then `self.configuration.coordinates` raises
AttributeError when the configuration is None. -/
def Snapshot.coordinates (s : Snapshot) : Except PyErr (Option (List PFloat)) :=
  match s.configuration with
  | none => .error .attributeError
  | some c => .ok c.coordinates

/-- Snapshot.velocities (snapshot.py lines 428-439): raises AttributeError on
an absent momentum; when `reversed` is set it returns `-1.0 *` the stored
velocities (a fresh array), which is a TypeError when the stored velocities
are themselves None. -/
def Snapshot.velocities (s : Snapshot) : Except PyErr (Option (List PFloat)) :=
  match s.momentum with
  | none => .error .attributeError
  | some m =>
    if s.reversed then
      match m.velocities with
      | some v => .ok (some (negList v))
      | none => .error .typeError
    else .ok m.velocities

/-- Snapshot.box_vectors (snapshot.py lines 441-450): inner None test, so an
absent configuration yields None. -/
def Snapshot.box_vectors (s : Snapshot) : Except PyErr (Option (List PFloat)) :=
  match s.configuration with
  | some c => .ok c.box_vectors
  | none => .ok none

/-- Snapshot.potential_energy (snapshot.py lines 452-461): inner None test. -/
def Snapshot.potential_energy (s : Snapshot) : Except PyErr (Option PFloat) :=
  match s.configuration with
  | some c => .ok c.potential_energy
  | none => .ok none

/-- Snapshot.kinetic_energy (snapshot.py lines 463-472): inner None test. -/
def Snapshot.kinetic_energy (s : Snapshot) : Except PyErr (Option PFloat) :=
  match s.momentum with
  | some m => .ok m.kinetic_energy
  | none => .ok none

/-- Snapshot.n_atoms (snapshot.py lines 474-483): None when the configuration
is absent, else `self.coordinates.shape[0]`, which raises when the present
configuration has no coordinate array. -/
def Snapshot.n_atoms (s : Snapshot) : Except PyErr (Option Nat) :=
  match s.configuration with
  | none => .ok none
  | some c =>
    match c.coordinates with
    | none => .error .attributeError
    | some arr => .ok (some arr.length)

/-- Snapshot.total_energy (snapshot.py lines 485-492):
`self.kinetic_energy + self.potential_energy`, where adding None raises a
TypeError. -/
def Snapshot.total_energy (s : Snapshot) : Except PyErr (Option PFloat) :=
  let ke : Option PFloat :=
    match s.momentum with
    | some m => m.kinetic_energy
    | none => none
  let pe : Option PFloat :=
    match s.configuration with
    | some c => c.potential_energy
    | none => none
  match ke, pe with
  | some k, some p => .ok (some (PFloat.add k p))
  | _, _ => .error .typeError

/-- Snapshot.reverse (snapshot.py lines 525-533) on the value of the snapshot:
only the `reversed` flag is toggled. -/
def Snapshot.reverse (s : Snapshot) : Snapshot :=
  { s with reversed := !s.reversed }

/-- Snapshot.copy (snapshot.py lines 498-509): calls `Snapshot(...)` passing
the existing configuration and momentum and the current flag; all other
arguments default to None. -/
def Snapshot.copy (s : Snapshot) : Except PyErr Snapshot :=
  Snapshot.init none none none none none none s.configuration s.momentum s.reversed

/-- Snapshot.reversed_copy (snapshot.py lines 511-523): `self.copy().reverse()`. -/
def Snapshot.reversed_copy (s : Snapshot) : Except PyErr Snapshot :=
  (s.copy).map Snapshot.reverse

/-!
Object-store model of the same snapshot code, for the claims about object
identity and in-place mutation: `Configuration` and `Momentum` objects live
in lists and snapshots hold their indices, so sharing and allocation are
observable.
-/

/-- Snapshot record as stored on the heap: references (indices) to the
configuration and momentum objects plus the `reversed` flag. -/
structure SnapRec where
  configuration : Option Nat
  momentum : Option Nat
  reversed : Bool
  deriving DecidableEq, Repr

/-- Object store holding all Configuration, Momentum and Snapshot objects. -/
structure Store where
  configs : List Configuration
  moms : List Momentum
  snaps : List SnapRec
  deriving DecidableEq, Repr

/-- Replace the element at one index by the image under a function, leaving
every other element alone. -/
def listModify : List α → Nat → (α → α) → List α
  | [], _, _ => []
  | a :: rest, 0, f => f a :: rest
  | a :: rest, n + 1, f => a :: listModify rest n f

/-- Snapshot.reverse (snapshot.py lines 525-533) on the store: flips the flag
of the snapshot object in place (`self.reversed = not self.reversed`) and
returns the same reference (`return self`). -/
def Store.reverseSnap (st : Store) (i : Nat) : Store × Nat :=
  ({ st with snaps := listModify st.snaps i (fun s => { s with reversed := !s.reversed }) }, i)

/-- Snapshot.__init__ on the store for the call pattern used by `copy()`
(snapshot.py lines 311-394 with all data arguments None): when a sub-object
reference is None a fresh empty object is allocated (lines 353-360), the
references are dropped again when the referenced object carries no data
(lines 380-385), the NaN check runs on the configuration coordinates
(lines 388-392), and the new snapshot record is allocated. -/
def Store.snapshotInitShared (st : Store) (cfg mom : Option Nat) (rev : Bool) :
    Except PyErr (Store × Nat) :=
  let p1 : Store × Nat :=
    match cfg with
    | some c => (st, c)
    | none => ({ st with configs := st.configs ++ [⟨none, none, none, none⟩] }, st.configs.length)
  let st1 := p1.1
  let ci := p1.2
  let p2 : Store × Nat :=
    match mom with
    | some m => (st1, m)
    | none => ({ st1 with moms := st1.moms ++ [⟨none, none⟩] }, st1.moms.length)
  let st2 := p2.1
  let mi := p2.2
  match st2.configs[ci]?, st2.moms[mi]? with
  | some cobj, some mobj =>
    let cfgF : Option Nat := if cobj.isEmptyData then none else some ci
    let momF : Option Nat := if mobj.isEmptyData then none else some mi
    let bad : Bool :=
      match cfgF with
      | some _ => hasNanOpt cobj.coordinates
      | none => false
    if bad then .error .valueError
    else .ok ({ st2 with snaps := st2.snaps ++ [⟨cfgF, momF, rev⟩] }, st2.snaps.length)
  | _, _ => .error .indexError

/-- Snapshot.copy (snapshot.py lines 498-509) on the store: a new Snapshot
object sharing the configuration and momentum references. -/
def Store.copySnap (st : Store) (i : Nat) : Except PyErr (Store × Nat) :=
  match st.snaps[i]? with
  | some s => Store.snapshotInitShared st s.configuration s.momentum s.reversed
  | none => .error .indexError

/-- Snapshot.reversed_copy (snapshot.py lines 511-523) on the store:
`self.copy().reverse()`. -/
def Store.reversed_copySnap (st : Store) (i : Nat) : Except PyErr (Store × Nat) :=
  (Store.copySnap st i).map (fun p => Store.reverseSnap p.1 p.2)

/-- Snapshot.velocities (snapshot.py lines 428-439) on the store: a read-only
access; for a reversed snapshot `-1.0 * self.momentum.velocities` allocates
a fresh array, leaving the stored Momentum untouched, so the store is
returned unchanged. -/
def Store.snapVelocities (st : Store) (i : Nat) :
    Except PyErr (Store × Option (List PFloat)) :=
  match st.snaps[i]? with
  | none => .error .indexError
  | some s =>
    match s.momentum with
    | none => .error .attributeError
    | some mi =>
      match st.moms[mi]? with
      | none => .error .indexError
      | some m =>
        if s.reversed then
          match m.velocities with
          | some v => .ok (st, some (negList v))
          | none => .error .typeError
        else .ok (st, m.velocities)

theorem listModify_getElem_self {l : List α} {i : Nat} {f : α → α} (h : i < l.length) :
    (listModify l i f)[i]? = (l[i]?).map f := by
  induction l generalizing i with
  | nil => simp at h
  | cons a rest ih =>
    cases i with
    | zero => simp [listModify]
    | succ n =>
      simp only [listModify, List.getElem?_cons_succ]
      exact ih (by simpa using h)

theorem listModify_getElem_other {l : List α} {i j : Nat} {f : α → α} (h : j ≠ i) :
    (listModify l i f)[j]? = l[j]? := by
  induction l generalizing i j with
  | nil => simp [listModify]
  | cons a rest ih =>
    cases i with
    | zero =>
      cases j with
      | zero => exact absurd rfl h
      | succ n => simp [listModify]
    | succ n =>
      cases j with
      | zero => simp [listModify]
      | succ k =>
        simp only [listModify, List.getElem?_cons_succ]
        exact ih (fun hk => h (by simp [hk]))

/-!
PathMoveChange model (`openpathsampling/pathmovechange.py`).
-/

/-- One trial path bound to a replica-ID; the trajectory is opaque here. -/
structure Sample where
  replica : Int
  traj : Nat
  deriving DecidableEq, Repr

/-- SampleSet state: the list of currently accepted samples. -/
abbrev SampleSet := List Sample

/-- Modelled from the spec: `SampleSet.apply_samples` for one new sample
(class `SampleSet` is not under src/) — "for each element of new_samples,
any existing Sample with the same replica-ID is superseded"; a sample with
a fresh replica-ID is added. -/
def applyOne (ss : SampleSet) (s : Sample) : SampleSet :=
  if ss.any (fun t => t.replica == s.replica)
  then ss.map (fun t => if t.replica == s.replica then s else t)
  else ss ++ [s]

/-- Modelled from the spec: `SampleSet.apply_samples(new_samples)` (class
`SampleSet` is not under src/) — supersede per replica-ID, one new sample
after another. -/
def applySamples (ss : SampleSet) (news : List Sample) : SampleSet :=
  news.foldl applyOne ss

/-- Modelled from the spec: the `SampleSet(samples)` constructor (class
`SampleSet` is not under src/) — "builds the replica-to-Sample mapping
(last write per replica-ID wins on construction)". -/
def sampleSetMk (l : List Sample) : SampleSet :=
  applySamples [] l

/-- PathMoveChange tree restricted to the node kinds the claims concern
(pathmovechange.py): `SamplePathMoveChange` leaves carrying local samples
and their accepted flag, the three sequential variants, and
`FilterSamplesPathMoveChange` with its selected indices and
`use_all_samples` switch. -/
inductive PMC where
  | sample (localSamples : List Sample) (accepted : Bool)
  | sequential (subs : List PMC)
  | partAccept (subs : List PMC)
  | conditional (subs : List PMC)
  | filterSel (sub : PMC) (selected : List Int) (useAll : Bool)
  deriving Repr

mutual

/-- The `accepted` property: a leaf carries its flag; the base
`_get_accepted` (line 376-382) returns True, which
`SequentialPathMoveChange`, `PartialAcceptanceSequentialMovePath` and
`FilterSamplesPathMoveChange` inherit; only
`ConditionalSequentialMovePath._get_accepted` (lines 666-671) demands every
sub-change accepted. -/
def PMC.acceptedB : PMC → Bool
  | .sample _ a => a
  | .sequential _ => true
  | .partAccept _ => true
  | .conditional subs => PMC.allAccepted subs
  | .filterSel _ _ _ => true

/-- Conjunction of `acceptedB` over a list of sub-changes. -/
def PMC.allAccepted : List PMC → Bool
  | [] => true
  | c :: rest => c.acceptedB && PMC.allAccepted rest

end

/-- Elements of the list returned by `_get_samples`: Sample objects normally,
but `FilterSamplesPathMoveChange._get_samples` (line 700) produces bare
integers `idx % len(sample_set)`. -/
inductive PyElem where
  | samp (s : Sample)
  | intv (n : Int)
  deriving DecidableEq, Repr

mutual

/-- The `all_samples` property: the base class (lines 352-362) returns the
node's own `_local_samples` — which is empty for every non-leaf node
including `FilterSamplesPathMoveChange` —, while
`SequentialPathMoveChange` (lines 584-589, inherited by the partial and
conditional variants) concatenates the sub-changes. -/
def PMC.all_samples : PMC → List Sample
  | .sample ls _ => ls
  | .sequential subs => PMC.allSamplesList subs
  | .partAccept subs => PMC.allSamplesList subs
  | .conditional subs => PMC.allSamplesList subs
  | .filterSel _ _ _ => []

/-- Concatenation of `all_samples` over sub-changes. -/
def PMC.allSamplesList : List PMC → List Sample
  | [] => []
  | c :: rest => c.all_samples ++ PMC.allSamplesList rest

end

/-- The `samples` property evaluated with a recursion budget (Python has no
such budget: an exhausted budget models RecursionError, which CPython
raises when `_get_samples` keeps re-entering itself).
Per node (pathmovechange.py):
leaf lines 411-420 (local samples if accepted, else empty);
sequential lines 578-582 (concatenation);
partial acceptance lines 612-620 (concatenation of the accepted run of
sub-changes up to the first rejected one);
conditional lines 656-664 (same run, but the result is discarded for the
empty list as soon as a rejected sub-change is seen);
filter lines 691-702 (`sample_set` is `self.all_samples` — its own, empty,
local samples — when `use_all_samples`, else `self.samples`, the property
being computed, and the result is the list of integers
`idx % len(sample_set)`; an empty `sample_set` makes `%` raise
ZeroDivisionError unless no index is selected). -/
def PMC.samplesFuel : Nat → PMC → Except PyErr (List PyElem)
  | 0, _ => .error .recursionError
  | fuel + 1, p =>
    match p with
    | .sample ls a => .ok (if a then ls.map PyElem.samp else [])
    | .sequential subs =>
      subs.foldlM (fun acc c => (PMC.samplesFuel fuel c).map (fun l => acc ++ l)) []
    | .partAccept subs =>
      (subs.takeWhile PMC.acceptedB).foldlM
        (fun acc c => (PMC.samplesFuel fuel c).map (fun l => acc ++ l)) []
    | .conditional subs => do
      let run ← (subs.takeWhile PMC.acceptedB).foldlM
        (fun acc c => (PMC.samplesFuel fuel c).map (fun l => acc ++ l)) []
      if PMC.allAccepted subs then .ok run else .ok []
    | .filterSel sub sel useAll => do
      let sampleSet ←
        if useAll then .ok ((PMC.filterSel sub sel useAll).all_samples.map PyElem.samp)
        else PMC.samplesFuel fuel (.filterSel sub sel useAll)
      if sel.isEmpty then .ok []
      else if sampleSet.length == 0 then .error .zeroDivisionError
      else .ok (sel.map (fun idx => PyElem.intv (idx.emod sampleSet.length)))

/-- The `apply_to` method evaluated with the same recursion budget.
Per node (pathmovechange.py): leaf lines 495-499
(`SampleSet(other).apply_samples(self._local_samples)` — note the local
samples, applied regardless of the accepted flag); sequential lines
592-598; partial acceptance lines 622-631 (stop at the first rejected
sub-change but keep what was already applied); conditional lines 645-654
(apply while accepted, but return the untouched input on the first
rejection); filter inherits the base class lines 387-393,
`SampleSet(other).apply_samples(self.samples)`, whose sample list here
consists of integers if it ever terminates. -/
def PMC.applyTo : Nat → PMC → SampleSet → Except PyErr SampleSet
  | 0, _, _ => .error .recursionError
  | fuel + 1, p, other =>
    match p with
    | .sample ls _ => .ok (applySamples (sampleSetMk other) ls)
    | .sequential subs =>
      subs.foldlM (fun ss c => PMC.applyTo fuel c ss) other
    | .partAccept subs =>
      (subs.takeWhile PMC.acceptedB).foldlM (fun ss c => PMC.applyTo fuel c ss) other
    | .conditional subs => do
      let final ← (subs.takeWhile PMC.acceptedB).foldlM
        (fun ss c => PMC.applyTo fuel c ss) other
      if PMC.allAccepted subs then .ok final else .ok other
    | .filterSel sub sel useAll => do
      let elems ← PMC.samplesFuel fuel (.filterSel sub sel useAll)
      match (elems.mapM (fun e => match e with
        | PyElem.samp s => Except.ok s
        | PyElem.intv _ => Except.error PyErr.attributeError) :
          Except PyErr (List Sample)) with
      | .ok ls => .ok (applySamples (sampleSetMk other) ls)
      | .error e => .error e

/-!
LambdaVolumePeriodic (`openpathsampling/volume.py` lines 321-394).
-/

/-- Python float `%` for a nonzero modulus: `x - y * floor(x / y)` (the result
takes the sign of `y`). A zero modulus raises ZeroDivisionError in Python;
the definitions below only apply it with the nonzero period length
established at construction. -/
def pymod (x y : ℚ) : ℚ :=
  x - y * (⌊x / y⌋ : ℤ)

/-- LambdaVolumePeriodic.do_wrap (volume.py lines 360-362):
`((value - self._period_shift) % self._period_len) + self._period_shift`. -/
def do_wrap (shift len value : ℚ) : ℚ :=
  pymod (value - shift) len + shift

/-- LambdaVolumePeriodic state: the (possibly wrapped) lambda bounds, the raw
period bounds, and the shift/length, present exactly when both period
bounds were given (`wrap`). The order parameter is applied outside the
model; membership takes its value directly. -/
structure LambdaVolumePeriodic where
  lambda_min : ℚ
  lambda_max : ℚ
  period_min : Option ℚ
  period_max : Option ℚ
  period_shift : Option ℚ
  period_len : Option ℚ
  wrap : Bool
  deriving DecidableEq, Repr

/-- LambdaVolumePeriodic.__init__ (volume.py lines 338-357): with both period
bounds, reject a lambda range longer than the period, take the full period
verbatim when the range equals it, and otherwise wrap both lambda bounds
into the periodic domain; without both bounds, `wrap` stays off. -/
def LambdaVolumePeriodic.init (lambda_min lambda_max : ℚ)
    (period_min period_max : Option ℚ) : Except PyErr LambdaVolumePeriodic :=
  match period_min, period_max with
  | some pmin, some pmax =>
    let shift := pmin
    let len := pmax - pmin
    if lambda_max - lambda_min > len then .error .exceptionErr
    else if lambda_max - lambda_min = len then
      .ok ⟨pmin, pmax, some pmin, some pmax, some shift, some len, true⟩
    else
      .ok ⟨do_wrap shift len lambda_min, do_wrap shift len lambda_max,
        some pmin, some pmax, some shift, some len, true⟩
  | pmin, pmax => .ok ⟨lambda_min, lambda_max, pmin, pmax, none, none, false⟩

/-- LambdaVolumePeriodic.__call__ (volume.py lines 387-394) applied to the
order-parameter value: wrap it when `wrap` is set, then test the single
range, or the union of the two wrap-around sub-ranges when
`lambda_min > lambda_max`. -/
def LambdaVolumePeriodic.call (v : LambdaVolumePeriodic) (l : ℚ) :
    Except PyErr Bool := do
  let lw ←
    if v.wrap then
      match v.period_shift, v.period_len with
      | some sh, some le => Except.ok (do_wrap sh le l)
      | _, _ => Except.error PyErr.attributeError
    else Except.ok l
  if v.lambda_min > v.lambda_max then
    .ok (decide (lw ≥ v.lambda_min) || decide (lw ≤ v.lambda_max))
  else
    .ok (decide (lw ≥ v.lambda_min) && decide (lw ≤ v.lambda_max))

/-!
DynamicsEngine option registration (`opentis/dynamics_engine.py`
lines 85-162).
-/

/-- Python value universe for engine options. Quantities and bare units carry
a dimension signature; two dimensions are `is_compatible` exactly when the
signatures agree. Class objects (`vcls`) are values whose `type(...)` is
the metaclass `type`. -/
inductive PyVal where
  | vint (n : Int)
  | vfloat (q : ℚ)
  | vbool (b : Bool)
  | vstr (s : String)
  | vlist (xs : List PyVal)
  | vquantity (dim : String) (mag : ℚ)
  | vunit (dim : String)
  | vnone
  | vcls (name : String)
  deriving Repr

/-- Tags returned by Python `type(...)` on the modelled values. -/
inductive PyType where
  | tint
  | tfloat
  | tbool
  | tstr
  | tlist
  | tquantity
  | tunit
  | tnone
  | ttype
  deriving DecidableEq, Repr

/-- Python `type(v)` on the modelled values. -/
def PyVal.typeOf : PyVal → PyType
  | .vint _ => .tint
  | .vfloat _ => .tfloat
  | .vbool _ => .tbool
  | .vstr _ => .tstr
  | .vlist _ => .tlist
  | .vquantity _ _ => .tquantity
  | .vunit _ => .tunit
  | .vnone => .tnone
  | .vcls _ => .ttype

/-- The per-option admission test of `_register_options`
(dynamics_engine.py lines 135-155) for one recognized option: matching
type, with the unit-compatibility test only in the `type(...) is u.Unit`
branch (line 137; a `Quantity` never enters it), the first-element type
test for lists (lines 143-147, an empty list on either side raising
IndexError at the subscript), the `isinstance(type(value), type(default))`
escape (line 150, true when the default is itself a class, every class
being an instance of the metaclass `type`), the None-default escape
(line 152), and ValueError otherwise. -/
def registerOne (defaultValue supplied : PyVal) : Except PyErr PyVal :=
  if supplied.typeOf = defaultValue.typeOf then
    if supplied.typeOf = PyType.tunit then
      match supplied, defaultValue with
      | .vunit dsup, .vunit ddef =>
        if dsup = ddef then .ok supplied else .error .valueError
      | _, _ => .error .typeError
    else if supplied.typeOf = PyType.tlist then
      match supplied, defaultValue with
      | .vlist (s0 :: _), .vlist (d0 :: _) =>
        if s0.typeOf = d0.typeOf then .ok supplied else .error .valueError
      | .vlist [], _ => .error .indexError
      | .vlist (_ :: _), .vlist [] => .error .indexError
      | _, _ => .error .typeError
    else .ok supplied
  else if defaultValue.typeOf = PyType.ttype then .ok supplied
  else if defaultValue.typeOf = PyType.tnone then .ok supplied
  else .error .valueError

/-- Python `dict.update`: entries of `base` overridden by `upd`, then the
entries of `upd` with fresh keys. -/
def dictUpdate (base upd : List (String × PyVal)) : List (String × PyVal) :=
  base.map (fun kv => (kv.1, (List.lookup kv.1 upd).getD kv.2)) ++
    upd.filter (fun kv => (List.lookup kv.1 base).isNone)

/-- DynamicsEngine._register_options (dynamics_engine.py lines 85-162) for a
fresh engine (no pre-existing `self.options`): `my_options` is the
defaults updated by the supplied options; the loop runs over the
recognized options only — every unrecognized key is ignored — and each
recognized option is admitted or rejected by `registerOne`, the admitted
values forming `okay_options` in table order. -/
def register_options (defaults options : List (String × PyVal)) :
    Except PyErr (List (String × PyVal)) :=
  let myOptions := dictUpdate defaults options
  defaults.foldlM
    (fun acc kv =>
      match List.lookup kv.1 myOptions with
      | some v => (registerOne kv.2 v).map (fun r => acc ++ [(kv.1, r)])
      | none => pure acc)
    []

/-- Merged default-options table of `OpenMMEngine`
(openmm_engine.py lines 28-38 over dynamics_engine.py lines 35-38), the
dimensioned defaults carrying their dimension signatures. -/
def openMMDefaultOptions : List (String × PyVal) :=
  [("n_atoms", PyVal.vint 0),
   ("n_frames_max", PyVal.vint 5000),
   ("nsteps_per_frame", PyVal.vint 10),
   ("solute_indices", PyVal.vlist [PyVal.vint 0]),
   ("temperature", PyVal.vquantity ("temperature") 300),
   ("collision_rate", PyVal.vquantity ("inverse_time") 1),
   ("timestep", PyVal.vquantity ("time") 2),
   ("platform", PyVal.vstr ("fastest")),
   ("forcefield_solute", PyVal.vstr ("amber96.xml")),
   ("forcefield_solvent", PyVal.vstr ("tip3p.xml"))]

/-!
ObjectJSON.build, in both variants (`openpathsampling/todict.py`
lines 215-246 and `openpathsampling/util/todict.py` lines 54-76).
-/

/-- JSON-simplified records as produced by `yaml.load` of a simplified
object: null, booleans, integers, strings, lists and string-keyed dicts. -/
inductive JVal where
  | jnull
  | jbool (b : Bool)
  | jint (n : Int)
  | jstr (s : String)
  | jlist (xs : List JVal)
  | jdict (fields : List (String × JVal))
  deriving Repr

/-- Python `key in obj` for a modelled dict. -/
def jHasKey (fields : List (String × JVal)) (k : String) : Bool :=
  fields.any (fun kv => kv.1 == k)

/-- Python `obj[key]` for a modelled dict. -/
def jGet (fields : List (String × JVal)) (k : String) : Option JVal :=
  List.lookup k fields

/-- Results of `ObjectJSON.build`: the reconstructed Python values. An
`_cls` record becomes `binstance cls attrs`, standing for
`class_list[cls].from_dict(attrs)` — the registered class's `from_dict`
applied to the recursively built `_dict` payload. -/
inductive BVal where
  | bnull
  | bbool (b : Bool)
  | bint (n : Int)
  | bstr (s : String)
  | blist (xs : List BVal)
  | btuple (xs : List BVal)
  | bdict (fields : List (String × BVal))
  | bdictPairs (pairs : List (BVal × BVal))
  | binstance (cls : String) (attrs : BVal)
  | bquantity (value : JVal) (units : JVal)
  | bndarray (shape : BVal) (dtype : JVal) (data : JVal)
  | bndarrayRaw (shape : JVal) (dtype : JVal) (data : JVal)
  | bslice (args : List JVal)
  deriving Repr

/-- Errors of `ObjectJSON.build`: the ValueError raised for an `_cls` tag
missing from the class registry (carrying the tag), shape errors, and the
exhausted recursion budget. -/
inductive BuildErr where
  | notRegistered (cls : String)
  | typeMismatch
  | missingKey
  | fuelOut
  deriving DecidableEq, Repr

/-- ObjectJSON.build of `openpathsampling/todict.py` (lines 215-246),
evaluated with a recursion budget and parameterized by the registry of
creatable class names (`self.class_list`). Branch order as in the source:
`_units`+`_value` (the value and units are passed to the unit machinery
unbuilt), `_slice` (raw arguments), `_numpy` (shape built recursively),
`_cls`+`_dict` (the registry gate: `from_dict` on the built payload when
the tag is registered, ValueError otherwise — the payload is not touched
in that case), `_tuple`, the tuple-pair `_dict` encoding, then a plain
dict; lists are rebuilt elementwise and scalars pass through. -/
def buildMain (registry : List String) : Nat → JVal → Except BuildErr BVal
  | 0, _ => .error .fuelOut
  | fuel + 1, obj =>
    match obj with
    | .jdict fs =>
      if jHasKey fs ("_units") && jHasKey fs ("_value") then
        match jGet fs ("_value"), jGet fs ("_units") with
        | some v, some u => .ok (.bquantity v u)
        | _, _ => .error .missingKey
      else if jHasKey fs ("_slice") then
        match jGet fs ("_slice") with
        | some (.jlist args) => .ok (.bslice args)
        | _ => .error .typeMismatch
      else if jHasKey fs ("_numpy") then
        match jGet fs ("_numpy"), jGet fs ("_dtype"), jGet fs ("_data") with
        | some sh, some dt, some da =>
          (buildMain registry fuel sh).map (fun bsh => .bndarray bsh dt da)
        | _, _, _ => .error .missingKey
      else if jHasKey fs ("_cls") && jHasKey fs ("_dict") then
        match jGet fs ("_cls"), jGet fs ("_dict") with
        | some (.jstr name), some d =>
          if registry.contains name then
            (buildMain registry fuel d).map (fun attrs => .binstance name attrs)
          else .error (.notRegistered name)
        | _, _ => .error .typeMismatch
      else if jHasKey fs ("_tuple") then
        match jGet fs ("_tuple") with
        | some (.jlist xs) => (xs.mapM (buildMain registry fuel)).map BVal.btuple
        | _ => .error .typeMismatch
      else if jHasKey fs ("_dict") then
        match jGet fs ("_dict") with
        | some d => do
          let bd ← buildMain registry fuel d
          match bd with
          | .blist ps =>
            (ps.mapM (fun pr => match pr with
              | BVal.btuple [k, v] => Except.ok (k, v)
              | BVal.blist [k, v] => Except.ok (k, v)
              | _ => Except.error BuildErr.typeMismatch)).map BVal.bdictPairs
          | _ => .error .typeMismatch
        | none => .error .missingKey
      else
        (fs.mapM (fun kv => (buildMain registry fuel kv.2).map (fun b => (kv.1, b)))).map
          BVal.bdict
    | .jlist xs => (xs.mapM (buildMain registry fuel)).map BVal.blist
    | .jnull => .ok .bnull
    | .jbool b => .ok (.bbool b)
    | .jint n => .ok (.bint n)
    | .jstr s => .ok (.bstr s)

/-- ObjectJSON.build of `openpathsampling/util/todict.py` (lines 54-76):
same dict dispatch without the `_tuple` and tuple-pair `_dict` branches
(the final else being the plain dict), the ndarray shape staying an
unbuilt `tuple(obj['_numpy'])`, and the same registry gate for
`_cls`+`_dict` records. -/
def buildUtil (registry : List String) : Nat → JVal → Except BuildErr BVal
  | 0, _ => .error .fuelOut
  | fuel + 1, obj =>
    match obj with
    | .jdict fs =>
      if jHasKey fs ("_units") && jHasKey fs ("_value") then
        match jGet fs ("_value"), jGet fs ("_units") with
        | some v, some u => .ok (.bquantity v u)
        | _, _ => .error .missingKey
      else if jHasKey fs ("_slice") then
        match jGet fs ("_slice") with
        | some (.jlist args) => .ok (.bslice args)
        | _ => .error .typeMismatch
      else if jHasKey fs ("_numpy") then
        match jGet fs ("_numpy"), jGet fs ("_dtype"), jGet fs ("_data") with
        | some sh, some dt, some da => .ok (.bndarrayRaw sh dt da)
        | _, _, _ => .error .missingKey
      else if jHasKey fs ("_cls") && jHasKey fs ("_dict") then
        match jGet fs ("_cls"), jGet fs ("_dict") with
        | some (.jstr name), some d =>
          if registry.contains name then
            (buildUtil registry fuel d).map (fun attrs => .binstance name attrs)
          else .error (.notRegistered name)
        | _, _ => .error .typeMismatch
      else
        (fs.mapM (fun kv => (buildUtil registry fuel kv.2).map (fun b => (kv.1, b)))).map
          BVal.bdict
    | .jlist xs => (xs.mapM (buildUtil registry fuel)).map BVal.blist
    | .jnull => .ok .bnull
    | .jbool b => .ok (.bbool b)
    | .jint n => .ok (.bint n)
    | .jstr s => .ok (.bstr s)

/-!
Theorems for the claims.
-/

theorem snapshotInit_isError (c v b : Option (List PFloat)) (p k : Option PFloat)
    (t : Option Nat) (cfg : Option Configuration) (mom : Option Momentum) (r : Bool) :
    isError (Snapshot.init c v b p k t cfg mom r) =
      hasNanOpt (c.orElse (fun _ => cfg.bind Configuration.coordinates)) := by
  cases c with
  | some arr =>
    cases cfg <;> cases t <;>
      simp [Snapshot.init, isError, hasNanOpt, Configuration.isEmptyData, Option.orElse] <;>
      split_ifs <;> simp_all [isError, hasNanOpt]
  | none =>
    cases cfg with
    | none =>
      cases t <;>
        simp [Snapshot.init, isError, hasNanOpt, Configuration.isEmptyData, Option.orElse] <;>
        split_ifs <;> simp_all [isError, hasNanOpt]
    | some cf =>
      cases hc : cf.coordinates with
      | some arr =>
        cases t <;>
          simp [Snapshot.init, isError, hasNanOpt, Configuration.isEmptyData,
            Option.orElse, hc] <;>
          split_ifs <;> simp_all [isError, hasNanOpt]
      | none =>
        cases t <;>
          simp [Snapshot.init, isError, hasNanOpt, Configuration.isEmptyData,
            Option.orElse, hc] <;>
          split_ifs <;> simp_all [isError, hasNanOpt]

/-- Claim C4: constructing a Configuration, or a Snapshot (directly from a
coordinate array or through a passed-in or synthesized Configuration),
fails with the InvalidInput error (ValueError) exactly when the effective
coordinates contain a not-a-number value; with finite or absent
coordinates this check never fails the construction. -/
theorem nan_coordinates_rejected :
    (∀ (c b : Option (List PFloat)) (p : Option PFloat) (t : Option Nat),
      isError (Configuration.init c b p t) = true ↔ hasNanOpt c = true)
    ∧ (∀ (c v b : Option (List PFloat)) (p k : Option PFloat) (t : Option Nat)
        (cfg : Option Configuration) (mom : Option Momentum) (r : Bool),
      isError (Snapshot.init c v b p k t cfg mom r) = true ↔
        hasNanOpt (c.orElse (fun _ => cfg.bind Configuration.coordinates)) = true) := by
  constructor
  · intro c b p t
    by_cases h : hasNanOpt c <;> simp [Configuration.init, isError, h]
  · intro c v b p k t cfg mom r
    rw [snapshotInit_isError]

/-- Claim C10: the NaN check never looks at velocities — a Momentum, or a
Snapshot whose velocities contain NaN values (with finite or absent
coordinates), is constructed without any error, and the NaN velocities are
stored and read back exactly as given. -/
theorem nan_velocities_accepted (vs : List PFloat) (ke : Option PFloat)
    (coords : Option (List PFloat)) (hnan : hasNan vs = true)
    (hcoords : hasNanOpt coords = false) :
    (Momentum.init (some vs) ke).velocities = some vs
    ∧ ∃ s, Snapshot.init coords (some vs) none none ke none none none false = .ok s
        ∧ s.momentum = some ⟨some vs, ke⟩
        ∧ s.velocities = .ok (some vs) := by
  refine ⟨rfl, ⟨?_, some ⟨some vs, ke⟩, false⟩, ?_, rfl, rfl⟩
  · exact if coords.isNone then none else some ⟨coords, none, none, none⟩
  · cases coords with
    | none =>
      cases ke <;>
        simp [Snapshot.init, hasNanOpt, Configuration.isEmptyData, Momentum.isEmptyData,
          Option.orElse]
    | some arr =>
      simp only [hasNanOpt] at hcoords
      cases ke <;>
        simp [Snapshot.init, hasNanOpt, Configuration.isEmptyData, Momentum.isEmptyData,
          Option.orElse, hcoords]

theorem nan_velocities_accepted_witness :
    hasNan [PFloat.nan] = true ∧ hasNanOpt none = false
    ∧ ((Momentum.init (some [PFloat.nan]) none).velocities = some [PFloat.nan]
      ∧ ∃ s, Snapshot.init none (some [PFloat.nan]) none none none none none none false
            = .ok s
          ∧ s.momentum = some ⟨some [PFloat.nan], none⟩
          ∧ s.velocities = .ok (some [PFloat.nan])) :=
  ⟨rfl, rfl, nan_velocities_accepted [PFloat.nan] none none rfl rfl⟩

/-- Claim C3, counterexample: the snapshot with both sub-objects absent is
constructible, and its `coordinates` and `velocities` accessors raise an
AttributeError instead of returning an absent value — `hasattr` is true
because `__init__` assigned the attribute (to None), so the `has` guard
does not protect these accessors. -/
theorem coordinates_raises_on_empty_snapshot :
    Snapshot.init none none none none none none none none false
        = .ok ⟨none, none, false⟩
    ∧ Snapshot.coordinates ⟨none, none, false⟩ = .error .attributeError
    ∧ Snapshot.velocities ⟨none, none, false⟩ = .error .attributeError :=
  ⟨rfl, rfl, rfl⟩

/-- Claim C3 as amended: when the configuration sub-object is absent the
accessors `box_vectors`, `potential_energy` and `n_atoms` return an absent
value, but `coordinates` raises an AttributeError; when the momentum
sub-object is absent `kinetic_energy` returns an absent value, but
`velocities` raises an AttributeError and `total_energy` a TypeError. -/
theorem snapshot_accessor_guards (s : Snapshot) :
    (s.configuration = none →
      s.box_vectors = .ok none ∧ s.potential_energy = .ok none ∧ s.n_atoms = .ok none
      ∧ s.coordinates = .error .attributeError)
    ∧ (s.momentum = none →
      s.kinetic_energy = .ok none ∧ s.velocities = .error .attributeError
      ∧ s.total_energy = .error .typeError) := by
  obtain ⟨cfg, mom, r⟩ := s
  constructor
  · rintro rfl
    exact ⟨rfl, rfl, rfl, rfl⟩
  · rintro rfl
    refine ⟨rfl, rfl, ?_⟩
    cases cfg <;> rfl

/-- Claim C1: with both sub-objects present (and a real velocity array),
`reversed_copy` yields a snapshot whose velocities are the elementwise
negation of the original ones, reversing twice restores the snapshot and
hence all accessors (coordinates, velocities and the energies), and the
velocity read of a reversed snapshot computes the sign flip at read time,
returning the store unchanged (the stored Momentum array is untouched). -/
theorem snapshot_reverse_roundtrip_and_reversed_copy
    (s : Snapshot) (c : Configuration) (m : Momentum) (v : List PFloat)
    (hc : s.configuration = some c) (hm : s.momentum = some m)
    (hv : m.velocities = some v)
    (hnanc : hasNanOpt c.coordinates = false) :
    s.velocities = .ok (some (if s.reversed then negList v else v))
    ∧ (∃ s2, s.reversed_copy = .ok s2
        ∧ s2.velocities = .ok (some (negList (if s.reversed then negList v else v))))
    ∧ s.reverse.reverse = s
    ∧ (s.reverse.reverse).coordinates = s.coordinates
    ∧ (s.reverse.reverse).velocities = s.velocities
    ∧ (s.reverse.reverse).potential_energy = s.potential_energy
    ∧ (s.reverse.reverse).kinetic_energy = s.kinetic_energy
    ∧ (s.reverse.reverse).total_energy = s.total_energy
    ∧ (∀ (st : Store) (i mi : Nat) (sr : SnapRec) (mm : Momentum) (w : List PFloat),
        st.snaps[i]? = some sr → sr.momentum = some mi → st.moms[mi]? = some mm →
        mm.velocities = some w → sr.reversed = true →
        Store.snapVelocities st i = .ok (st, some (negList w))) := by
  obtain ⟨cfg, mom, r⟩ := s
  simp only [Snapshot.mk.injEq] at hc hm ⊢
  subst hc; subst hm
  obtain ⟨cc, cb, cp, ct⟩ := c
  obtain ⟨mv, mk⟩ := m
  simp only at hv
  subst hv
  have hrr : Snapshot.reverse (Snapshot.reverse ⟨some ⟨cc, cb, cp, ct⟩, some ⟨some v, mk⟩, r⟩)
      = ⟨some ⟨cc, cb, cp, ct⟩, some ⟨some v, mk⟩, r⟩ := by
    simp [Snapshot.reverse]
  refine ⟨?_, ?_, hrr, by rw [hrr], by rw [hrr], by rw [hrr], by rw [hrr], by rw [hrr], ?_⟩
  · cases r <;> simp [Snapshot.velocities]
  · refine ⟨⟨if Configuration.isEmptyData ⟨cc, cb, cp, ct⟩ then none
        else some ⟨cc, cb, cp, ct⟩, some ⟨some v, mk⟩, !r⟩, ?_, ?_⟩
    · have hbad : hasNanOpt ((if Configuration.isEmptyData ⟨cc, cb, cp, ct⟩ then none
          else some (⟨cc, cb, cp, ct⟩ : Configuration)).bind Configuration.coordinates)
          = false := by
        split <;> cases cc <;> simp_all [hasNanOpt]
      simp [Snapshot.reversed_copy, Snapshot.copy, Snapshot.init, Snapshot.reverse,
        Option.orElse, Momentum.isEmptyData, hbad, Except.map]
    · cases r <;> simp [Snapshot.velocities, negList_negList]
  · intro st i mi sr mm w h1 h2 h3 h4 h5
    simp [Store.snapVelocities, h1, h2, h3, h4, h5]

theorem snapshot_reverse_roundtrip_witness :
    Snapshot.velocities ⟨some ⟨some [PFloat.val 1], none, none, none⟩,
        some ⟨some [PFloat.val 2], none⟩, false⟩ = .ok (some [PFloat.val 2])
    ∧ ∃ s2, Snapshot.reversed_copy ⟨some ⟨some [PFloat.val 1], none, none, none⟩,
        some ⟨some [PFloat.val 2], none⟩, false⟩ = .ok s2
        ∧ s2.velocities = .ok (some (negList [PFloat.val 2])) := by
  have h := snapshot_reverse_roundtrip_and_reversed_copy
    ⟨some ⟨some [PFloat.val 1], none, none, none⟩, some ⟨some [PFloat.val 2], none⟩, false⟩
    ⟨some [PFloat.val 1], none, none, none⟩ ⟨some [PFloat.val 2], none⟩ [PFloat.val 2]
    rfl rfl rfl rfl
  exact ⟨h.1, h.2.1⟩

/-- Claim C9: `reverse()` works in place — it returns the very same object
reference, flips only the `reversed` flag of that snapshot and leaves the
configuration and momentum heaps and every other snapshot untouched —
and `reversed_copy()` allocates exactly one new Snapshot record that
shares the original's Configuration and Momentum references (the
configuration and momentum heaps are unchanged, so no numeric data is
copied), leaving the original snapshot intact. -/
theorem reverse_in_place_and_shared_reversed_copy
    (st : Store) (i ci mi : Nat) (s : SnapRec) (cfg : Configuration) (m : Momentum)
    (hi : st.snaps[i]? = some s)
    (hc : s.configuration = some ci) (hm : s.momentum = some mi)
    (hC : st.configs[ci]? = some cfg) (hM : st.moms[mi]? = some m)
    (hcne : cfg.isEmptyData = false) (hmne : m.isEmptyData = false)
    (hnan : hasNanOpt cfg.coordinates = false) :
    (Store.reverseSnap st i).2 = i
    ∧ (Store.reverseSnap st i).1.configs = st.configs
    ∧ (Store.reverseSnap st i).1.moms = st.moms
    ∧ (Store.reverseSnap st i).1.snaps[i]? = some ⟨s.configuration, s.momentum, !s.reversed⟩
    ∧ (∀ j, j ≠ i → (Store.reverseSnap st i).1.snaps[j]? = st.snaps[j]?)
    ∧ ∃ st2, Store.reversed_copySnap st i = .ok (st2, st.snaps.length)
        ∧ st2.configs = st.configs
        ∧ st2.moms = st.moms
        ∧ st2.snaps[st.snaps.length]? = some ⟨some ci, some mi, !s.reversed⟩
        ∧ st2.snaps[i]? = some s
        ∧ i ≠ st.snaps.length := by
  have hlen : i < st.snaps.length := by
    by_contra hge
    rw [List.getElem?_eq_none (Nat.le_of_not_lt hge)] at hi
    exact Option.noConfusion hi
  have hne : i ≠ st.snaps.length := Nat.ne_of_lt hlen
  refine ⟨rfl, rfl, rfl, ?_, ?_, ?_⟩
  · rw [Store.reverseSnap]
    simp only
    rw [listModify_getElem_self hlen, hi]
    rfl
  · intro j hj
    rw [Store.reverseSnap]
    simp only
    exact listModify_getElem_other hj
  · refine ⟨⟨st.configs, st.moms,
      listModify (st.snaps ++ [⟨some ci, some mi, s.reversed⟩]) st.snaps.length
        (fun sr => { sr with reversed := !sr.reversed })⟩, ?_, rfl, rfl, ?_, ?_, hne⟩
    · rw [Store.reversed_copySnap, Store.copySnap, hi]
      dsimp only
      rw [hc, hm, Store.snapshotInitShared.eq_def]
      simp only [hC, hM, hcne, hmne, hnan]
      simp [Store.reverseSnap, Except.map]
    · rw [listModify_getElem_self (by simp)]
      rw [List.getElem?_concat_length]
      rfl
    · rw [listModify_getElem_other hne]
      rw [List.getElem?_append, if_pos hlen]
      exact hi

theorem reverse_in_place_witness :
    (Store.reverseSnap ⟨[⟨some [PFloat.val 1], none, none, none⟩],
      [⟨some [PFloat.val 2], none⟩], [⟨some 0, some 0, false⟩]⟩ 0).2 = 0
    ∧ ∃ st2, Store.reversed_copySnap ⟨[⟨some [PFloat.val 1], none, none, none⟩],
        [⟨some [PFloat.val 2], none⟩], [⟨some 0, some 0, false⟩]⟩ 0 = .ok (st2, 1)
        ∧ st2.configs = [⟨some [PFloat.val 1], none, none, none⟩]
        ∧ st2.moms = [⟨some [PFloat.val 2], none⟩]
        ∧ st2.snaps[1]? = some ⟨some 0, some 0, true⟩ := by
  have h := reverse_in_place_and_shared_reversed_copy
    ⟨[⟨some [PFloat.val 1], none, none, none⟩], [⟨some [PFloat.val 2], none⟩],
      [⟨some 0, some 0, false⟩]⟩ 0 0 0
    ⟨some 0, some 0, false⟩ ⟨some [PFloat.val 1], none, none, none⟩
    ⟨some [PFloat.val 2], none⟩ rfl rfl rfl rfl rfl rfl rfl rfl
  obtain ⟨h1, _, _, _, _, st2, h6, h7, h8, h9, _, _⟩ := h
  exact ⟨h1, st2, h6, h7, h8, h9⟩

theorem snapshot_accessor_guards_witness :
    Snapshot.box_vectors ⟨none, none, false⟩ = .ok none
    ∧ Snapshot.potential_energy ⟨none, none, false⟩ = .ok none
    ∧ Snapshot.n_atoms ⟨none, none, false⟩ = .ok none
    ∧ Snapshot.coordinates ⟨none, none, false⟩ = .error .attributeError
    ∧ Snapshot.kinetic_energy ⟨none, none, false⟩ = .ok none
    ∧ Snapshot.velocities ⟨none, none, false⟩ = .error .attributeError
    ∧ Snapshot.total_energy ⟨none, none, false⟩ = .error .typeError := by
  obtain ⟨h1, h2⟩ := snapshot_accessor_guards ⟨none, none, false⟩
  obtain ⟨a1, a2, a3, a4⟩ := h1 rfl
  obtain ⟨b1, b2, b3⟩ := h2 rfl
  exact ⟨a1, a2, a3, a4, b1, b2, b3⟩

/-- Claim C2: over sub-changes that are accepted, rejected, accepted (in that
order), a ConditionalSequentialMovePath is not accepted, has no samples,
and applies to any SampleSet as the identity (the very input is returned),
while a PartialAcceptanceSequentialMovePath over the same sub-changes has
exactly the first (accepted) sub-change's samples. -/
theorem conditional_and_partial_acc_rej_acc
    (n : Nat) (c1 c2 c3 : PMC) (other : SampleSet) (l1 : List PyElem) (s1 : SampleSet)
    (h1 : c1.acceptedB = true) (h2 : c2.acceptedB = false) (h3 : c3.acceptedB = true)
    (hs : PMC.samplesFuel n c1 = .ok l1) (ha : PMC.applyTo n c1 other = .ok s1) :
    (PMC.conditional [c1, c2, c3]).acceptedB = false
    ∧ PMC.samplesFuel (n + 1) (.conditional [c1, c2, c3]) = .ok []
    ∧ PMC.applyTo (n + 1) (.conditional [c1, c2, c3]) other = .ok other
    ∧ PMC.samplesFuel (n + 1) (.partAccept [c1, c2, c3]) = .ok l1 := by
  have htw : List.takeWhile PMC.acceptedB [c1, c2, c3] = [c1] := by
    simp [List.takeWhile, h1, h2]
  have hall : PMC.allAccepted [c1, c2, c3] = false := by
    simp [PMC.allAccepted, h2]
  refine ⟨?_, ?_, ?_, ?_⟩
  · simp [PMC.acceptedB, hall]
  · simp [PMC.samplesFuel, htw, hall, hs, Except.map, Except.bind, bind, pure, Except.pure]
  · simp [PMC.applyTo, htw, hall, ha, Except.map, Except.bind, bind, pure, Except.pure]
  · simp [PMC.samplesFuel, htw, hs, Except.map, Except.bind, bind, pure, Except.pure]

theorem conditional_and_partial_witness :
    PMC.acceptedB (.sample [⟨1, 10⟩] true) = true
    ∧ PMC.acceptedB (.sample [⟨2, 20⟩] false) = false
    ∧ PMC.samplesFuel 1 (.sample [⟨1, 10⟩] true) = .ok [PyElem.samp ⟨1, 10⟩]
    ∧ (PMC.conditional [.sample [⟨1, 10⟩] true, .sample [⟨2, 20⟩] false,
        .sample [⟨3, 30⟩] true]).acceptedB = false
    ∧ PMC.samplesFuel 2 (.conditional [.sample [⟨1, 10⟩] true, .sample [⟨2, 20⟩] false,
        .sample [⟨3, 30⟩] true]) = .ok []
    ∧ PMC.applyTo 2 (.conditional [.sample [⟨1, 10⟩] true, .sample [⟨2, 20⟩] false,
        .sample [⟨3, 30⟩] true]) [⟨1, 5⟩] = .ok [⟨1, 5⟩]
    ∧ PMC.samplesFuel 2 (.partAccept [.sample [⟨1, 10⟩] true, .sample [⟨2, 20⟩] false,
        .sample [⟨3, 30⟩] true]) = .ok [PyElem.samp ⟨1, 10⟩] := by
  have h := conditional_and_partial_acc_rej_acc 1 (.sample [⟨1, 10⟩] true)
    (.sample [⟨2, 20⟩] false) (.sample [⟨3, 30⟩] true) [⟨1, 5⟩]
    [PyElem.samp ⟨1, 10⟩] [⟨1, 10⟩] rfl rfl rfl rfl rfl
  exact ⟨rfl, rfl, rfl, h.1, h.2.1, h.2.2.1, h.2.2.2⟩

/-- Claim C7 (code bug): `FilterSamplesPathMoveChange.samples` never returns
the selected Sample objects. With `use_all_samples` off (the default),
`_get_samples` reads `self.samples` — the very property being computed —
so the evaluation never terminates no matter the recursion budget
(RecursionError); with it on, the node's own `all_samples` is the empty
list, so any selected index raises ZeroDivisionError at `idx % 0`. -/
theorem filter_samples_never_yields_samples
    (n : Nat) (sub : PMC) (sel : List Int) (i : Int) (rest : List Int) :
    PMC.samplesFuel n (.filterSel sub sel false) = .error .recursionError
    ∧ PMC.samplesFuel (n + 1) (.filterSel sub (i :: rest) true)
        = .error .zeroDivisionError := by
  constructor
  · induction n with
    | zero => rfl
    | succ k ih => simp [PMC.samplesFuel, ih, Except.map, Except.bind, bind, pure, Except.pure]
  · simp [PMC.samplesFuel, PMC.all_samples, Except.map, Except.bind, bind, pure, Except.pure]

/-- Claim C6 (code bug): `_register_options` silently accepts a dimensioned
(Quantity) option value whose unit is dimensionally incompatible with the
default's unit — the unit-compatibility test sits only in the
`type(...) is u.Unit` branch, which a Quantity value never enters
(supplying a time quantity for the temperature default passes and lands
in `okay_options`), even though a bare incompatible `u.Unit` value is
rejected with a ValueError by that branch. -/
theorem register_options_accepts_incompatible_quantity_unit :
    register_options openMMDefaultOptions
        [("temperature", PyVal.vquantity ("time") 1)]
      = .ok [("n_atoms", PyVal.vint 0),
             ("n_frames_max", PyVal.vint 5000),
             ("nsteps_per_frame", PyVal.vint 10),
             ("solute_indices", PyVal.vlist [PyVal.vint 0]),
             ("temperature", PyVal.vquantity ("time") 1),
             ("collision_rate", PyVal.vquantity ("inverse_time") 1),
             ("timestep", PyVal.vquantity ("time") 2),
             ("platform", PyVal.vstr ("fastest")),
             ("forcefield_solute", PyVal.vstr ("amber96.xml")),
             ("forcefield_solvent", PyVal.vstr ("tip3p.xml"))]
    ∧ registerOne (PyVal.vquantity ("temperature") 300) (PyVal.vquantity ("time") 1)
        = .ok (PyVal.vquantity ("time") 1)
    ∧ registerOne (PyVal.vunit ("temperature")) (PyVal.vunit ("time"))
        = .error .valueError := by
  exact ⟨rfl, rfl, rfl⟩

theorem pymod_eq_mul_fract (x y : ℚ) (hy : y ≠ 0) :
    pymod x y = y * Int.fract (x / y) := by
  unfold pymod Int.fract
  rw [mul_sub, mul_div_cancel₀ _ hy]

theorem pymod_nonneg (x y : ℚ) (hy : 0 < y) : 0 ≤ pymod x y := by
  rw [pymod_eq_mul_fract x y (ne_of_gt hy)]
  exact mul_nonneg hy.le (Int.fract_nonneg _)

theorem pymod_lt (x y : ℚ) (hy : 0 < y) : pymod x y < y := by
  rw [pymod_eq_mul_fract x y (ne_of_gt hy)]
  calc y * Int.fract (x / y) < y * 1 :=
        (mul_lt_mul_left hy).mpr (Int.fract_lt_one _)
    _ = y := mul_one y

/-- Claim C5: a LambdaVolumePeriodic constructed with both period bounds wraps
the order-parameter value by
`wrap(x) = ((x - period_min) mod (period_max - period_min)) + period_min`
(which lands in the periodic domain), and when the stored interval crosses
the period boundary (`lambda_min > lambda_max`) membership is the OR of the
two wrap-around sub-ranges; concretely, the volume over `[350, 10]` with
period `[0, 360]` accepts the order-parameter values 355 and 5 and rejects
180. -/
theorem lambda_volume_periodic_wraparound
    (lmin lmax pmin pmax l : ℚ) (v : LambdaVolumePeriodic)
    (hinit : LambdaVolumePeriodic.init lmin lmax (some pmin) (some pmax) = .ok v)
    (hlen : pmin < pmax)
    (hcross : v.lambda_max < v.lambda_min) :
    v.call l = .ok (decide (do_wrap pmin (pmax - pmin) l ≥ v.lambda_min)
        || decide (do_wrap pmin (pmax - pmin) l ≤ v.lambda_max))
    ∧ pmin ≤ do_wrap pmin (pmax - pmin) l
    ∧ do_wrap pmin (pmax - pmin) l < pmax
    ∧ (∃ v0, LambdaVolumePeriodic.init 350 10 (some 0) (some 360) = .ok v0
        ∧ v0.call 355 = .ok true ∧ v0.call 5 = .ok true ∧ v0.call 180 = .ok false) := by
  have hpos : (0 : ℚ) < pmax - pmin := by linarith
  have hfields : v.period_shift = some pmin ∧ v.period_len = some (pmax - pmin)
      ∧ v.wrap = true := by
    unfold LambdaVolumePeriodic.init at hinit
    dsimp only at hinit
    split at hinit
    · exact absurd hinit (by simp)
    · split at hinit
      · obtain rfl := (Except.ok.injEq _ _).mp hinit
        exact ⟨rfl, rfl, rfl⟩
      · obtain rfl := (Except.ok.injEq _ _).mp hinit
        exact ⟨rfl, rfl, rfl⟩
  obtain ⟨hsh, hle, hw⟩ := hfields
  refine ⟨?_, ?_, ?_, ?_⟩
  · rw [LambdaVolumePeriodic.call, hw, hsh, hle]
    simp only [if_pos rfl, Except.bind, bind]
    split
    · rfl
    · next hfalse => exact absurd hcross (by simpa [gt_iff_lt] using hfalse)
  · have h := pymod_nonneg (l - pmin) (pmax - pmin) hpos
    unfold do_wrap
    linarith
  · have h := pymod_lt (l - pmin) (pmax - pmin) hpos
    unfold do_wrap
    linarith
  · refine ⟨⟨350, 10, some 0, some 360, some 0, some 360, true⟩, ?_, ?_, ?_, ?_⟩ <;>
      norm_num [LambdaVolumePeriodic.init, LambdaVolumePeriodic.call, do_wrap, pymod,
        Except.bind, bind, Rat.floor_def]

theorem lambda_volume_periodic_witness :
    LambdaVolumePeriodic.init 350 10 (some 0) (some 360)
        = .ok ⟨350, 10, some 0, some 360, some 0, some 360, true⟩
    ∧ LambdaVolumePeriodic.call ⟨350, 10, some 0, some 360, some 0, some 360, true⟩ 355
        = .ok (decide (do_wrap 0 (360 - 0) 355 ≥ (350 : ℚ))
            || decide (do_wrap 0 (360 - 0) 355 ≤ (10 : ℚ)))
    ∧ (0 : ℚ) ≤ do_wrap 0 (360 - 0) 355 ∧ do_wrap 0 (360 - 0) 355 < 360 := by
  have hinit : LambdaVolumePeriodic.init 350 10 (some 0) (some 360)
      = .ok ⟨350, 10, some 0, some 360, some 0, some 360, true⟩ := by
    norm_num [LambdaVolumePeriodic.init, do_wrap, pymod, Rat.floor_def]
  have h := lambda_volume_periodic_wraparound 350 10 0 360 355
    ⟨350, 10, some 0, some 360, some 0, some 360, true⟩ hinit (by norm_num) (by norm_num)
  exact ⟨hinit, h.1, h.2.1, h.2.2.1⟩

theorem jGet_some_hasKey {fs : List (String × JVal)} {k : String} {v : JVal}
    (h : jGet fs k = some v) : jHasKey fs k = true := by
  induction fs with
  | nil => simp [jGet] at h
  | cons kv rest ih =>
    rw [jGet, List.lookup] at h
    rw [jHasKey, List.any]
    by_cases hk : k = kv.1
    · simp [hk]
    · have hkb : (k == kv.1) = false := beq_false_of_ne hk
      have hkb2 : (kv.1 == k) = false := beq_false_of_ne (fun he => hk he.symm)
      rw [hkb] at h
      simp only [hkb2, Bool.false_or]
      exact ih h

/-- Claim C8: in both serializer variants, `ObjectJSON.build` on a record of
shape with keys `_cls` (a class name) and `_dict` (and none of the earlier
dispatch keys) reconstructs the instance through the registered class's
`from_dict` applied to the recursively built payload when the name is in
the class registry, and fails with the NotFound-style ValueError — never
touching the payload, hence instantiating nothing — when the name is not
registered. -/
theorem objectjson_build_cls_registry
    (registry : List String) (fs : List (String × JVal)) (name : String) (d : JVal)
    (n : Nat)
    (hu : jHasKey fs ("_units") = false)
    (hsl : jHasKey fs ("_slice") = false)
    (hnp : jHasKey fs ("_numpy") = false)
    (hcls : jGet fs ("_cls") = some (.jstr name))
    (hdict : jGet fs ("_dict") = some d) :
    (registry.contains name = true →
      buildMain registry (n + 1) (.jdict fs)
          = (buildMain registry n d).map (BVal.binstance name)
      ∧ buildUtil registry (n + 1) (.jdict fs)
          = (buildUtil registry n d).map (BVal.binstance name))
    ∧ (registry.contains name = false →
      buildMain registry (n + 1) (.jdict fs) = .error (.notRegistered name)
      ∧ buildUtil registry (n + 1) (.jdict fs) = .error (.notRegistered name)) := by
  have hkc := jGet_some_hasKey hcls
  have hkd := jGet_some_hasKey hdict
  constructor
  · intro hr
    have hm : name ∈ registry := by simpa using hr
    exact ⟨by simp [buildMain, hu, hsl, hnp, hkc, hkd, hcls, hdict, hm],
      by simp [buildUtil, hu, hsl, hnp, hkc, hkd, hcls, hdict, hm]⟩
  · intro hr
    have hm : name ∉ registry := by simpa using hr
    exact ⟨by simp [buildMain, hu, hsl, hnp, hkc, hkd, hcls, hdict, hm],
      by simp [buildUtil, hu, hsl, hnp, hkc, hkd, hcls, hdict, hm]⟩

theorem objectjson_build_cls_registry_witness :
    buildMain [("Foo")] 2 (.jdict [("_cls", JVal.jstr ("Foo")), ("_dict", JVal.jnull)])
        = .ok (BVal.binstance ("Foo") BVal.bnull)
    ∧ buildUtil [("Foo")] 2 (.jdict [("_cls", JVal.jstr ("Foo")), ("_dict", JVal.jnull)])
        = .ok (BVal.binstance ("Foo") BVal.bnull)
    ∧ buildMain [("Foo")] 2 (.jdict [("_cls", JVal.jstr ("Bar")), ("_dict", JVal.jnull)])
        = .error (.notRegistered ("Bar"))
    ∧ buildUtil [("Foo")] 2 (.jdict [("_cls", JVal.jstr ("Bar")), ("_dict", JVal.jnull)])
        = .error (.notRegistered ("Bar")) := by
  have h1 := (objectjson_build_cls_registry [("Foo")]
    [("_cls", JVal.jstr ("Foo")), ("_dict", JVal.jnull)] ("Foo") JVal.jnull 1
    rfl rfl rfl rfl rfl).1 rfl
  have h2 := (objectjson_build_cls_registry [("Foo")]
    [("_cls", JVal.jstr ("Bar")), ("_dict", JVal.jnull)] ("Bar") JVal.jnull 1
    rfl rfl rfl rfl rfl).2 rfl
  refine ⟨?_, ?_, h2.1, h2.2⟩
  · rw [h1.1]; rfl
  · rw [h1.2]; rfl

end OPS
